import Mathlib

/-!
Shallow embedding of the container-manager subsystem of udp-benchmark.

It covers the bit-packed `ChildState` lifecycle encoding
(src/manager/src/os/mod.rs), the per-child atomic state transitions and the
manager's reaping loop (src/manager/src/os/linux.rs), and the container
config predicates (src/manager/src/config/mod.rs).

Machine `isize` values are modelled as `Int`.  The source targets 64-bit
Linux, so where the source's arithmetic can leave the 64-bit range (the
`status << 4` shift in the encoding, which discards shifted-out bits) the
embedding wraps explicitly with `wrap64`.  `value & 0b1111` on an `isize` is
`value % 16` (`Int.emod`, always in `0..15`), and the arithmetic
(sign-preserving) right shift `value >> 4` is `Int.fdiv value 16`.
Rust `Result` values are modelled as `Except`, and a Rust panic is modelled
as an `Except.error`.
-/

deriving instance DecidableEq for Except

/-- `OutputFormat` from src/manager/src/config/mod.rs. -/
inductive OutputFormat where
  | None
  | Client
  | Passthrough
  | Router
  | RouterLogging
deriving DecidableEq

/-- `Container` from src/manager/src/config/mod.rs. -/
structure Container where
  output_type : OutputFormat
deriving DecidableEq

/-- `Container::is_router` (src/manager/src/config/mod.rs, lines 43-48). -/
def Container.is_router (c : Container) : Bool :=
  match c.output_type with
  | OutputFormat.Router | OutputFormat.RouterLogging => true
  | _ => false

/-- `Container::has_file` (src/manager/src/config/mod.rs, lines 50-55). -/
def Container.has_file (c : Container) : Bool :=
  match c.output_type with
  | OutputFormat.Client | OutputFormat.Passthrough | OutputFormat.RouterLogging => true
  | _ => false

/-- `ChildState` from src/manager/src/os/mod.rs; the `Crashed` payload is the
child's `isize` exit status. -/
inductive ChildState where
  | None
  | Created
  | Started
  | Stopped
  | Crashed (status : Int)
deriving DecidableEq

/-- The discriminant used by the Rust `derive(PartialOrd, Ord)` on
`ChildState`: variants compare by declaration order first. -/
def ChildState.rank : ChildState → Nat
  | .None => 0
  | .Created => 1
  | .Started => 2
  | .Stopped => 3
  | .Crashed _ => 4

/-- The derived Rust `Ord::le` on `ChildState`: discriminant first, then the
payload lexicographically (only `Crashed` has one). -/
def ChildState.ble (a b : ChildState) : Bool :=
  match a, b with
  | .Crashed x, .Crashed y => decide (x ≤ y)
  | a, b => decide (a.rank ≤ b.rank)

/-- Interpret an unbounded integer as the 64-bit `isize` it truncates to. -/
def wrap64 (x : Int) : Int :=
  (x + 9223372036854775808) % 18446744073709551616 - 9223372036854775808

/-- `impl TryFrom<u8> for ChildState` (src/manager/src/os/mod.rs, lines 21-33). -/
def ChildState.tryFromU8 (value : Nat) : Except String ChildState :=
  match value with
  | 0 => Except.ok ChildState.None
  | 1 => Except.ok ChildState.Created
  | 2 => Except.ok ChildState.Started
  | 3 => Except.ok ChildState.Stopped
  | _ => Except.error "Invalid ChildState"

/-- `impl TryFrom<isize> for ChildState` (src/manager/src/os/mod.rs,
lines 35-47): `value & 0b1111` is the tag (`% 16` agrees with the machine
AND), tag 4 recovers the payload with the arithmetic shift `value >> 4`
(`Int.fdiv value 16`), any other tag goes through the u8 decoder. -/
def ChildState.tryFromIsize (value : Int) : Except String ChildState :=
  let state := value % 16
  if state = 4 then Except.ok (ChildState.Crashed (value.fdiv 16))
  else ChildState.tryFromU8 state.toNat

/-- `impl TryFrom<ChildState> for u8` (src/manager/src/os/mod.rs, lines 49-61). -/
def ChildState.u8TryFrom : ChildState → Except String Nat
  | .None => Except.ok 0
  | .Created => Except.ok 1
  | .Started => Except.ok 2
  | .Stopped => Except.ok 3
  | .Crashed _ => Except.error "Cannot transform to u8"

/-- `impl From<ChildState> for isize` (src/manager/src/os/mod.rs,
lines 63-71): `Crashed(status)` encodes as `(status << 4) + 4` on a 64-bit
`isize` (the shift discards high bits, hence `wrap64`; the `+ 4` then cannot
leave the range), every other variant as `u8::try_from(value).unwrap_or(0)`. -/
def isizeFrom (value : ChildState) : Int :=
  match value with
  | .Crashed status => wrap64 (16 * status) + 4
  | v => Int.ofNat ((ChildState.u8TryFrom v).toOption.getD 0)

/-- `ChildState::try_from(x).unwrap_or(ChildState::None)`, the default the
source applies wherever it reports or stores a decoded state. -/
def decodeD (x : Int) : ChildState :=
  (ChildState.tryFromIsize x).toOption.getD ChildState.None

/-- `AtomicIsize::fetch_update` on the stored word: `f` returning `none`
leaves the word unchanged and yields `Err(old)`, `some nw` stores `nw`. -/
def fetch_update (f : Int → Option Int) (x : Int) : Int × Except Int Unit :=
  match f x with
  | some nw => (nw, Except.ok ())
  | none => (x, Except.error x)

/-- Result of `Child::start`: the stored word afterwards, the returned
`Result` (the error carries the state the message reports), and whether the
SIGHUP start signal was sent. -/
structure StartOutcome where
  state : Int
  res : Except ChildState Unit
  signaled : Bool

/-- The closure `Child::start` passes to `fetch_update`: only a decodable
word in state `Created` moves to `Started`. -/
def startUpdate (x : Int) : Option Int :=
  match ChildState.tryFromIsize x with
  | .error _ => none
  | .ok state =>
    if state ≠ ChildState.Created then none
    else some (isizeFrom ChildState.Started)

/-- `Child::start` (src/manager/src/os/linux.rs, lines 88-112): CAS
`Created → Started` then send SIGHUP; on failure bail with the decoded old
state and send nothing. -/
def Child.start (x : Int) : StartOutcome :=
  match fetch_update startUpdate x with
  | (nw, .ok _) => ⟨nw, Except.ok (), true⟩
  | (old, .error o) => ⟨old, Except.error (decodeD o), false⟩

/-- The closure `Child::next_state` passes to `fetch_update`: a decodable
word strictly below `Stopped` is replaced by `isize::from(state) + 1`. -/
def nextUpdate (x : Int) : Option Int :=
  match ChildState.tryFromIsize x with
  | .error _ => none
  | .ok state =>
    if ChildState.ble ChildState.Stopped state then none
    else some (isizeFrom state + 1)

/-- `Child::next_state` (src/manager/src/os/linux.rs, lines 114-137). -/
def Child.next_state (x : Int) : Int × Except ChildState Unit :=
  match fetch_update nextUpdate x with
  | (nw, .ok _) => (nw, Except.ok ())
  | (old, .error o) => (old, Except.error (decodeD o))

/-- `Child::set_state` (src/manager/src/os/linux.rs, lines 139-142):
unconditional `swap`, returning the decoded old state. -/
def Child.set_state (x : Int) (status : ChildState) : Int × ChildState :=
  (isizeFrom status, decodeD x)

/-- The closure `Child::set_exit_state` passes to `fetch_update`: a decodable
word strictly below `Stopped` is replaced by the `Crashed(status)` encoding. -/
def exitUpdate (status : Int) (x : Int) : Option Int :=
  match ChildState.tryFromIsize x with
  | .error _ => none
  | .ok state =>
    if ChildState.ble ChildState.Stopped state then none
    else some (isizeFrom (ChildState.Crashed status))

/-- `Child::set_exit_state` (src/manager/src/os/linux.rs, lines 144-167). -/
def Child.set_exit_state (x : Int) (status : Int) : Int × Except ChildState Unit :=
  match fetch_update (exitUpdate status) x with
  | (nw, .ok _) => (nw, Except.ok ())
  | (old, .error o) => (old, Except.error (decodeD o))

/-- `std::sync::atomic::Ordering`. -/
inductive AtomicOrdering where
  | Relaxed
  | Acquire
  | Release
  | AcqRel
  | SeqCst
deriving DecidableEq

/-- `AtomicIsize::load(order)`: the Rust standard library documents an
unconditional panic when `order` is `Release` or `AcqRel`; the panic is
modelled as an `Except.error` carrying the documented panic message. -/
def atomic_load (order : AtomicOrdering) (x : Int) : Except String Int :=
  match order with
  | .Release => Except.error "there is no such thing as a release load"
  | .AcqRel => Except.error "there is no such thing as an acquire-release load"
  | _ => Except.ok x

/-- `Child::get_state` (src/manager/src/os/linux.rs, lines 169-174):
`self.state.load(Ordering::AcqRel).try_into().unwrap_or(ChildState::None)`. -/
def Child.get_state (x : Int) : Except String ChildState :=
  (atomic_load AtomicOrdering.AcqRel x).map decodeD

/-- `nix::sys::wait::WaitStatus`, restricted to the notifications the reaping
loop can receive under `WUNTRACED`; the variants beyond `Exited` and
`Signaled` all fall into the source's catch-all `bail!` arm. -/
inductive WaitStatus where
  | Exited (pid : Nat) (status : Int)
  | Signaled (pid : Nat) (sig : Nat) (core : Bool)
  | StoppedSig (pid : Nat) (sig : Nat)
  | Continued (pid : Nat)
deriving DecidableEq

/-- The `ContainerManager` registry: pid → the child's stored atomic state
word (the only part of `Child` the verified operations touch). -/
abbrev Registry := List (Nat × Int)

/-- `BTreeMap::get` on the pid-keyed registry (the lookup `get_child`
performs under the registry lock). -/
def lookupPid : Registry → Nat → Option Int
  | [], _ => none
  | (p, q) :: rest, pid => if p = pid then some q else lookupPid rest pid

/-- The `WaitStatus::Exited(pid, status)` arm of the loop body applied to the
registry: nonzero status calls `set_exit_state` (its `Result` is ignored by
the source), zero calls `set_state(ChildState::Stopped)`. -/
def reapOne : Registry → Nat → Int → Registry
  | [], _, _ => []
  | (p, q) :: rest, pid, status =>
    if p = pid then
      (p,
        if status ≠ 0 then (Child.set_exit_state q status).1
        else (Child.set_state q ChildState.Stopped).1) :: reapOne rest pid status
    else (p, q) :: reapOne rest pid status

/-- The reaping loop of `ContainerManager::wait` (src/manager/src/os/linux.rs,
lines 210-241), driven by the list of kernel notifications in delivery order.
The second component is `none` while the loop would still be blocked in
`waitpid` (notifications exhausted with children outstanding) and `some r`
once the call returns `r`.  An `Exited` pid missing from the registry is
logged and skipped without decrementing `childs_running`; `Signaled` is
skipped by the explicit `continue` arm; any other status hits the catch-all
`bail!`; a loop that reaps everything falls through to `bail!("todo")`. -/
def waitLoop : List WaitStatus → Nat → Registry → Registry × Option (Except String Unit)
  | [], running, reg =>
    if running = 0 then (reg, some (Except.error "todo")) else (reg, none)
  | e :: rest, running, reg =>
    if running = 0 then (reg, some (Except.error "todo"))
    else
      match e with
      | .Exited pid status =>
        match lookupPid reg pid with
        | none => waitLoop rest running reg
        | some _ => waitLoop rest (running - 1) (reapOne reg pid status)
      | .Signaled _ _ _ => waitLoop rest running reg
      | .StoppedSig _ _ => (reg, some (Except.error "Pid status was not expetced"))
      | .Continued _ => (reg, some (Except.error "Pid status was not expetced"))

/-- `ContainerManager::wait`: `childs_running` starts as the registry size at
loop entry. -/
def ContainerManager.wait (reg : Registry) (events : List WaitStatus) :
    Registry × Option (Except String Unit) :=
  waitLoop events reg.length reg

/-- The manager state `ContainerManager::create_container` touches: the
pid-keyed registry and the `managers` router counter. -/
structure MState where
  childs : Registry
  managers : Int
deriving DecidableEq

/-- `BTreeMap::insert` on the pid-keyed registry. -/
def insertChild : Registry → Nat → Int → Registry
  | [], pid, w => [(pid, w)]
  | (p, q) :: rest, pid, w =>
    if p = pid then (p, w) :: rest else (p, q) :: insertChild rest pid w

/-- `ContainerManager::create_container` (src/manager/src/os/linux.rs,
lines 190-198): bump the router counter first, then spawn.  `spawnResult`
stands for the outcome of the OS-dependent `Child::spawn_child`, which on
success yields a pid for a child whose state word is `AtomicIsize::new(1)`
(`Created`); `?` propagates its error before `add_child` runs. -/
def ContainerManager.create_container (m : MState) (config : Container)
    (spawnResult : Except String Nat) : MState × Except String Unit :=
  let m1 := if config.is_router then { m with managers := m.managers + 1 } else m
  match spawnResult with
  | .error e => (m1, Except.error e)
  | .ok pid => ({ m1 with childs := insertChild m1.childs pid 1 }, Except.ok ())

/-- The state word left behind by one `next_state` call (the word is kept
whether the call succeeded or failed). -/
def stepState (x : Int) : Int := (Child.next_state x).1

/-- The state word after `n` further `next_state` calls. -/
def iterSteps : Nat → Int → Int
  | 0, x => x
  | n + 1, x => iterSteps n (stepState x)

/-- Whether a `Crashed` payload survives the 60 payload bits the 64-bit
encoding leaves after the 4-bit tag; states without payload always do. -/
def crashPayloadInRange : ChildState → Bool
  | ChildState.Crashed k => decide (-576460752303423488 ≤ k ∧ k < 576460752303423488)
  | _ => true

/-! ## Helper lemmas -/

theorem wrap64_eq_of_bounds {x : Int} (h1 : -9223372036854775808 ≤ x)
    (h2 : x < 9223372036854775808) : wrap64 x = x := by
  unfold wrap64
  omega

theorem isizeFrom_crashed (k : Int) :
    isizeFrom (ChildState.Crashed k) = wrap64 (16 * k + 4) := by
  show wrap64 (16 * k) + 4 = wrap64 (16 * k + 4)
  unfold wrap64
  omega

theorem tryFromU8_ge_four : ∀ n : Nat, 4 ≤ n →
    ChildState.tryFromU8 n = Except.error "Invalid ChildState"
  | 0, h => absurd h (by decide)
  | 1, h => absurd h (by decide)
  | 2, h => absurd h (by decide)
  | 3, h => absurd h (by decide)
  | _ + 4, _ => rfl

theorem tryFromU8_ok_iff : ∀ n : Nat, (ChildState.tryFromU8 n).isOk = true ↔ n ≤ 3
  | 0 => by decide
  | 1 => by decide
  | 2 => by decide
  | 3 => by decide
  | n + 4 => by
    rw [tryFromU8_ge_four (n + 4) (by omega)]
    constructor
    · intro hcon
      exact absurd hcon (by decide)
    · intro hle
      exact absurd hle (by omega)

theorem ble_stopped_of_terminal {s : ChildState}
    (h : s = ChildState.Stopped ∨ ∃ k, s = ChildState.Crashed k) :
    ChildState.ble ChildState.Stopped s = true := by
  rcases h with h | ⟨k, h⟩ <;> subst h <;> rfl

theorem decodeD_of_ok {x : Int} {s : ChildState}
    (h : ChildState.tryFromIsize x = Except.ok s) : decodeD x = s := by
  simp [decodeD, h, Except.toOption]

theorem lookup_reapOne (reg : Registry) (pid : Nat) (status x : Int)
    (h : lookupPid reg pid = some x) :
    lookupPid (reapOne reg pid status) pid =
      some (if status ≠ 0 then (Child.set_exit_state x status).1
            else (Child.set_state x ChildState.Stopped).1) := by
  induction reg with
  | nil => simp [lookupPid] at h
  | cons hd tl ih =>
    obtain ⟨a, b⟩ := hd
    simp only [lookupPid] at h
    by_cases hp : a = pid
    · rw [if_pos hp] at h
      cases h
      simp only [reapOne, if_pos hp, lookupPid]
    · rw [if_neg hp] at h
      simp only [reapOne, if_neg hp, lookupPid]
      exact ih h

theorem tryFromIsize_tag4 (v : Int) (h : v % 16 = 4) :
    ChildState.tryFromIsize v = Except.ok (ChildState.Crashed (v.fdiv 16)) := by
  unfold ChildState.tryFromIsize
  simp [h]

theorem fdiv_sixteen_mul_add_four (k : Int) : (16 * k + 4).fdiv 16 = k := by
  rw [Int.fdiv_eq_ediv _ (by omega)]
  omega

/-! ## Claim theorems -/

/-- C1 (counterexample): the round-trip law fails on the code at
`Crashed(2^59)`.  `(2^59 << 4) + 4` on a 64-bit `isize` wraps to
`-2^63 + 4`, whose tag is still 4 but whose arithmetically shifted payload
is `-2^59`, so decoding the encoding returns `Crashed(-2^59)`, not the
original state. -/
theorem decode_encode_roundtrip_cex :
    ChildState.tryFromIsize (isizeFrom (ChildState.Crashed 576460752303423488)) =
      Except.ok (ChildState.Crashed (-576460752303423488)) ∧
    ChildState.tryFromIsize (isizeFrom (ChildState.Crashed 576460752303423488)) ≠
      Except.ok (ChildState.Crashed 576460752303423488) := by
  constructor <;> decide

/-- C1 (amended): decoding the integer encoding of a `LifecycleState` value
`s` yields `s` again — including `Crashed` with negative and with positive
payloads — for every `s` whose `Crashed` payload fits the 60 payload bits
the 64-bit encoding keeps after its 4-bit tag (`-2^59 ≤ k < 2^59`);
payload-free states round-trip unconditionally. -/
theorem decode_encode_roundtrip (s : ChildState)
    (h : crashPayloadInRange s = true) :
    ChildState.tryFromIsize (isizeFrom s) = Except.ok s := by
  cases s with
  | Crashed k =>
    have hb : -576460752303423488 ≤ k ∧ k < 576460752303423488 := by
      simpa [crashPayloadInRange] using h
    have he : isizeFrom (ChildState.Crashed k) = 16 * k + 4 := by
      rw [isizeFrom_crashed]
      apply wrap64_eq_of_bounds <;> omega
    rw [he, tryFromIsize_tag4 _ (by omega), fdiv_sixteen_mul_add_four]
  | None => decide
  | Created => decide
  | Started => decide
  | Stopped => decide

theorem decode_encode_roundtrip_witness :
    crashPayloadInRange (ChildState.Crashed (-7)) = true ∧
    ChildState.tryFromIsize (isizeFrom (ChildState.Crashed (-7))) =
      Except.ok (ChildState.Crashed (-7)) :=
  ⟨by decide, decode_encode_roundtrip (ChildState.Crashed (-7)) (by decide)⟩

/-- C8: decoding an integer fails with the `DecodeError` message exactly when
its low-4-bit tag (`v % 16`, the machine `v & 0b1111`) lies in `5..15`, and
succeeds exactly for tags 0, 1, 2, 3 and 4. -/
theorem decode_ok_iff_tag_le_four (v : Int) :
    (5 ≤ v % 16 → ChildState.tryFromIsize v = Except.error "Invalid ChildState") ∧
    ((ChildState.tryFromIsize v).isOk = true ↔ v % 16 ≤ 4) := by
  have h0 : 0 ≤ v % 16 := Int.emod_nonneg v (by decide)
  have h1 : v % 16 < 16 := Int.emod_lt_of_pos v (by decide)
  by_cases h4 : v % 16 = 4
  · constructor
    · intro h5
      omega
    · unfold ChildState.tryFromIsize
      simp [h4]
      rfl
  · have hd : ChildState.tryFromIsize v = ChildState.tryFromU8 (v % 16).toNat := by
      unfold ChildState.tryFromIsize
      simp [h4]
    constructor
    · intro h5
      rw [hd]
      apply tryFromU8_ge_four
      omega
    · rw [hd, tryFromU8_ok_iff]
      omega

theorem decode_ok_iff_tag_le_four_witness :
    ChildState.tryFromIsize 21 = Except.error "Invalid ChildState" :=
  (decode_ok_iff_tag_le_four 21).1 (by decide)

/-- C9: `get_state` never completes with the decoded state.  It loads the
atomic word with `Ordering::AcqRel`, and `AtomicIsize::load` panics
unconditionally on that ordering, so for every stored word the call panics
(modelled as the error carrying the documented panic message) instead of
returning a `LifecycleState`. -/
theorem get_state_always_panics (x : Int) :
    Child.get_state x =
      Except.error "there is no such thing as an acquire-release load" := rfl

/-- C2: terminal states are absorbing.  For every stored word decoding to
`Stopped` or to `Crashed(k)` for any integer `k`, each of `start`,
`next_state` and `set_exit_state` returns an error reporting that state and
leaves the stored word unchanged (and `start` sends no signal). -/
theorem terminal_states_absorbing (x : Int) (s : ChildState)
    (hdec : ChildState.tryFromIsize x = Except.ok s)
    (hterm : s = ChildState.Stopped ∨ ∃ k, s = ChildState.Crashed k) :
    Child.start x = ⟨x, Except.error s, false⟩ ∧
    Child.next_state x = (x, Except.error s) ∧
    ∀ status : Int, Child.set_exit_state x status = (x, Except.error s) := by
  have hne : s ≠ ChildState.Created := by
    rcases hterm with h | ⟨k, h⟩ <;> subst h <;> simp
  have hble : ChildState.ble ChildState.Stopped s = true := ble_stopped_of_terminal hterm
  have hD : decodeD x = s := decodeD_of_ok hdec
  refine ⟨?_, ?_, ?_⟩
  · simp [Child.start, fetch_update, startUpdate, hdec, hne, hD]
  · simp [Child.next_state, fetch_update, nextUpdate, hdec, hble, hD]
  · intro status
    simp [Child.set_exit_state, fetch_update, exitUpdate, hdec, hble, hD]

theorem terminal_states_absorbing_witness :
    Child.start 3 = ⟨3, Except.error ChildState.Stopped, false⟩ ∧
    Child.next_state 3 = (3, Except.error ChildState.Stopped) ∧
    Child.set_exit_state 3 9 = (3, Except.error ChildState.Stopped) :=
  have h := terminal_states_absorbing 3 ChildState.Stopped (by decide) (Or.inl rfl)
  ⟨h.1, h.2.1, h.2.2 9⟩

theorem iterSteps_stopped (n : Nat) : iterSteps n 3 = 3 := by
  induction n with
  | zero => rfl
  | succ n ih =>
    show iterSteps n (stepState 3) = 3
    rw [show stepState 3 = 3 from rfl]
    exact ih

/-- C3: starting from the `Created` encoding, `next_state` succeeds exactly
twice — the first call moves the word to the `Started` encoding, the second
to the `Stopped` encoding — and every further call (the word never moves
again) returns an error. -/
theorem advance_from_created_twice :
    Child.next_state (isizeFrom ChildState.Created) =
      (isizeFrom ChildState.Started, Except.ok ()) ∧
    Child.next_state (isizeFrom ChildState.Started) =
      (isizeFrom ChildState.Stopped, Except.ok ()) ∧
    ∀ n : Nat, Child.next_state (iterSteps n (isizeFrom ChildState.Stopped)) =
      (isizeFrom ChildState.Stopped, Except.error ChildState.Stopped) := by
  refine ⟨rfl, rfl, ?_⟩
  intro n
  have h3 : iterSteps n (isizeFrom ChildState.Stopped) = 3 := iterSteps_stopped n
  rw [h3]
  rfl

/-- C4: `start` succeeds exactly on a word decoding to `Created`, in which
case it stores the `Started` encoding and sends the SIGHUP start signal; on
any other decoded state it leaves the word unchanged, sends no signal, and
errors reporting the observed state — so the second of two consecutive
`start` calls fails and reports `Started`. -/
theorem start_succeeds_iff_created (x : Int) (s : ChildState)
    (hdec : ChildState.tryFromIsize x = Except.ok s) :
    ((Child.start x).res = Except.ok () ↔ s = ChildState.Created) ∧
    (s = ChildState.Created →
      Child.start x = ⟨isizeFrom ChildState.Started, Except.ok (), true⟩) ∧
    (s ≠ ChildState.Created → Child.start x = ⟨x, Except.error s, false⟩) ∧
    (Child.start (Child.start (isizeFrom ChildState.Created)).state).res =
      Except.error ChildState.Started := by
  have hD : decodeD x = s := decodeD_of_ok hdec
  by_cases hs : s = ChildState.Created
  · have hstart : Child.start x = ⟨isizeFrom ChildState.Started, Except.ok (), true⟩ := by
      subst hs
      simp [Child.start, fetch_update, startUpdate, hdec]
    refine ⟨?_, fun _ => hstart, fun hc => absurd hs hc, rfl⟩
    simp [hstart, hs]
  · have hstart : Child.start x = ⟨x, Except.error s, false⟩ := by
      simp [Child.start, fetch_update, startUpdate, hdec, hs, hD]
    refine ⟨?_, fun hc => absurd hc hs, fun _ => hstart, rfl⟩
    simp [hstart, hs]

theorem start_succeeds_iff_created_witness :
    Child.start 0 = ⟨0, Except.error ChildState.None, false⟩ :=
  (start_succeeds_iff_created 0 ChildState.None rfl).2.2.1 (by decide)

/-- C5: in the reaping loop, an `Exited(pid, status)` notification whose pid
is in the registry decrements the outstanding count and rewrites that
child's word: status 0 unconditionally overwrites it with the `Stopped`
encoding via `set_state`, a nonzero status applies `set_exit_state`, which
on a non-terminal decoded state stores the `Crashed(status)` encoding — and
`Crashed(7)` encodes to 116. -/
theorem wait_reap_exit (reg : Registry) (rest : List WaitStatus)
    (running pid : Nat) (status x : Int)
    (hr : running ≠ 0) (h : lookupPid reg pid = some x) :
    waitLoop (WaitStatus.Exited pid status :: rest) running reg =
      waitLoop rest (running - 1) (reapOne reg pid status) ∧
    (status = 0 →
      lookupPid (reapOne reg pid status) pid = some (isizeFrom ChildState.Stopped)) ∧
    (∀ s : ChildState, status ≠ 0 → ChildState.tryFromIsize x = Except.ok s →
      ChildState.ble ChildState.Stopped s = false →
      lookupPid (reapOne reg pid status) pid =
        some (isizeFrom (ChildState.Crashed status))) ∧
    isizeFrom (ChildState.Crashed 7) = 116 := by
  refine ⟨?_, ?_, ?_, by decide⟩
  · simp [waitLoop, hr, h]
  · intro h0
    subst h0
    rw [lookup_reapOne reg pid 0 x h]
    simp [Child.set_state]
  · intro s hnz hdec hble
    rw [lookup_reapOne reg pid status x h]
    simp [hnz, Child.set_exit_state, fetch_update, exitUpdate, hdec, hble]

theorem wait_reap_exit_witness :
    lookupPid (reapOne [(5, 2)] 5 7) 5 = some 116 := by
  have h := wait_reap_exit [(5, 2)] [] 1 5 7 2 (by decide) rfl
  have h2 := h.2.2.1 ChildState.Started (by decide) rfl rfl
  rw [h.2.2.2] at h2
  exact h2

theorem waitLoop_never_ok (events : List WaitStatus) (running : Nat)
    (reg : Registry) (r : Except String Unit)
    (h : (waitLoop events running reg).2 = some r) :
    ∃ msg, r = Except.error msg := by
  induction events generalizing running reg with
  | nil =>
    by_cases h0 : running = 0
    · subst h0
      simp only [waitLoop, if_pos rfl] at h
      cases h
      exact ⟨"todo", rfl⟩
    · simp only [waitLoop, if_neg h0] at h
      cases h
  | cons e rest ih =>
    by_cases h0 : running = 0
    · subst h0
      simp only [waitLoop, if_pos rfl] at h
      cases h
      exact ⟨"todo", rfl⟩
    · simp only [waitLoop, if_neg h0] at h
      cases e with
      | Exited pid status =>
        have h2 : (match lookupPid reg pid with
            | none => waitLoop rest running reg
            | some _ => waitLoop rest (running - 1) (reapOne reg pid status)).2 =
            some r := h
        cases hl : lookupPid reg pid with
        | none =>
          rw [hl] at h2
          exact ih _ _ h2
        | some w =>
          rw [hl] at h2
          exact ih _ _ h2
      | Signaled pid sig core => exact ih _ _ h
      | StoppedSig pid sig =>
        cases h
        exact ⟨"Pid status was not expetced", rfl⟩
      | Continued pid =>
        cases h
        exact ⟨"Pid status was not expetced", rfl⟩

/-- C6: whenever `ContainerManager::wait` returns (in particular whenever the
reaping loop has reaped every process counted at entry), the returned value
is an error — the fall-through `bail!("todo")` — never a success. -/
theorem wait_never_returns_ok (reg : Registry) (events : List WaitStatus)
    (r : Except String Unit) (h : (ContainerManager.wait reg events).2 = some r) :
    ∃ msg, r = Except.error msg :=
  waitLoop_never_ok events reg.length reg r h

theorem wait_never_returns_ok_witness :
    ∃ msg, (Except.error "todo" : Except String Unit) = Except.error msg :=
  wait_never_returns_ok [] [] (Except.error "todo") rfl

/-- C7 (counterexample): a child terminated by a signal does not make the
loop return a fatal protocol error.  With one registered child, a
`Signaled` notification is skipped by the explicit `continue` arm — alone it
leaves the loop blocked with the registry untouched, and followed by the
child's exit the loop completes normally (reaching the `bail!("todo")`
fall-through, not the protocol `bail!`). -/
theorem wait_signaled_not_protocol_error :
    waitLoop [WaitStatus.Signaled 5 9 false] 1 [(5, 2)] = ([(5, 2)], none) ∧
    waitLoop [WaitStatus.Signaled 5 9 false, WaitStatus.Exited 5 0] 1 [(5, 2)] =
      ([(5, 3)], some (Except.error "todo")) := by
  constructor <;> rfl

/-- C7 (amended): every notification that is neither an `Exited` nor a
`Signaled` one — e.g. a child merely stopped/suspended, or a continue
notification — makes the loop return the fatal catch-all protocol error
immediately, aborting the loop with the registry unchanged. -/
theorem wait_unexpected_status_protocol_error (pid sig : Nat)
    (rest : List WaitStatus) (running : Nat) (reg : Registry)
    (hr : running ≠ 0) :
    waitLoop (WaitStatus.StoppedSig pid sig :: rest) running reg =
      (reg, some (Except.error "Pid status was not expetced")) ∧
    waitLoop (WaitStatus.Continued pid :: rest) running reg =
      (reg, some (Except.error "Pid status was not expetced")) := by
  constructor <;> simp [waitLoop, hr]

theorem wait_unexpected_status_protocol_error_witness :
    waitLoop [WaitStatus.StoppedSig 5 19] 1 [] =
      ([], some (Except.error "Pid status was not expetced")) :=
  (wait_unexpected_status_protocol_error 5 19 [] 1 [] (by decide)).1

/-- C10: `create_container` bumps the router counter before attempting to
spawn, so for every manager state and every router-discipline spec (`Router`
or `RouterLogging`) whose spawn fails, the call returns the spawn error and
registers no child, yet the router counter has still grown by one — it
counts router creation attempts, not successful creations. -/
theorem create_container_router_counter_on_spawn_failure (m : MState)
    (config : Container) (e : String)
    (hr : config.output_type = OutputFormat.Router ∨
      config.output_type = OutputFormat.RouterLogging) :
    (ContainerManager.create_container m config (Except.error e)).1.managers =
      m.managers + 1 ∧
    (ContainerManager.create_container m config (Except.error e)).1.childs =
      m.childs ∧
    (ContainerManager.create_container m config (Except.error e)).2 =
      Except.error e := by
  have hor : config.is_router = true := by
    rcases hr with h | h <;> simp [Container.is_router, h]
  simp [ContainerManager.create_container, hor]

theorem create_container_router_counter_on_spawn_failure_witness :
    (ContainerManager.create_container ⟨[], 0⟩ ⟨OutputFormat.Router⟩
        (Except.error "boom")).1.managers = (⟨[], 0⟩ : MState).managers + 1 ∧
    (ContainerManager.create_container ⟨[], 0⟩ ⟨OutputFormat.Router⟩
        (Except.error "boom")).1.childs = (⟨[], 0⟩ : MState).childs ∧
    (ContainerManager.create_container ⟨[], 0⟩ ⟨OutputFormat.Router⟩
        (Except.error "boom")).2 = Except.error "boom" :=
  create_container_router_counter_on_spawn_failure ⟨[], 0⟩ ⟨OutputFormat.Router⟩
    "boom" (Or.inl rfl)
